import Mathlib

/-!
Shallow embedding of the firestarter host-side driver
(src/firestarter/serial_comm.py and src/firestarter/eprom_operations.py)
with theorems checking the frozen claims about its behaviour.

Conventions of the embedding:
* bytes are `Nat` values below 256; byte strings are `List Nat`;
* Python strings are Lean `String`; `None` is `Option.none`;
* Python truthiness of an optional string (`if s:`) is `optTruthy`;
* fallible Python code returns `Except`; an uncaught exception is an
  `Except.error` value that the callers thread through exactly as the
  corresponding `try`/`except`/`finally` blocks do.
-/

namespace Firestarter

/-! ### Small Python-string helpers -/

/-- Truthiness of an optional Python string: `None` and `""` are falsy. -/
def optTruthy : Option String → Bool
  | none => false
  | some s => s ≠ ""

/-- Characters accepted by Python `str.strip()` with no argument
(whitespace; after the printable filter only the space character can occur,
but we keep the full ASCII whitespace set). -/
def isPySpace (c : Char) : Bool :=
  c = ' ' || c = '\t' || c = '\n' || c = '\r' || c = '\x0b' || c = '\x0c'

/-- Python `str.strip()`. -/
def pyStrip (s : String) : String :=
  ⟨((s.data.dropWhile isPySpace).reverse.dropWhile isPySpace).reverse⟩

/-- Python `str.lower()` restricted to ASCII, which is the domain used here. -/
def pyLower (s : String) : String :=
  ⟨s.data.map Char.toLower⟩

/-- Does `pre` occur at the head of `l`? -/
def isPrefixL : List Char → List Char → Bool
  | [], _ => true
  | _ :: _, [] => false
  | a :: as, b :: bs => a = b && isPrefixL as bs

/-- Python substring test `needle in hay` on character lists. -/
def containsAux (needle : List Char) : List Char → Bool
  | [] => decide (needle = [])
  | c :: t => isPrefixL needle (c :: t) || containsAux needle t

/-- Python substring test `needle in hay` on strings. -/
def containsSub (hay needle : String) : Bool :=
  containsAux needle.data hay.data

/-- Value of a nonempty run of decimal digits. -/
def digitsVal : List Char → Option Nat
  | [] => none
  | l =>
    if l.all Char.isDigit then
      some (l.foldl (fun a c => a * 10 + (c.toNat - '0'.toNat)) 0)
    else none

/-- Value of a nonempty run of hexadecimal digits. -/
def hexDigitsVal : List Char → Option Nat
  | [] => none
  | l =>
    if l.all (fun c => c.isDigit || ('a' ≤ c && c ≤ 'f') || ('A' ≤ c && c ≤ 'F')) then
      some (l.foldl (fun a c =>
        a * 16 +
          (if c.isDigit then c.toNat - '0'.toNat
           else if 'a' ≤ c && c ≤ 'f' then c.toNat - 'a'.toNat + 10
           else c.toNat - 'A'.toNat + 10)) 0)
    else none

/-- Python `int(s)` (base 10): surrounding whitespace, an optional sign and a
nonempty digit run.  Digit-group underscores are not modelled; the strings
this development evaluates on contain none. -/
def pyInt10 (s : String) : Option Int :=
  let l := (s.data.dropWhile isPySpace).reverse.dropWhile isPySpace |>.reverse
  match l with
  | '+' :: t => (digitsVal t).map Int.ofNat
  | '-' :: t => (digitsVal t).map (fun n => -(n : Int))
  | t => (digitsVal t).map Int.ofNat

/-- Python `int(s, 16)`: like `pyInt10` but hexadecimal digits with an
optional `0x`/`0X` prefix after the sign. -/
def pyInt16 (s : String) : Option Int :=
  let l := (s.data.dropWhile isPySpace).reverse.dropWhile isPySpace |>.reverse
  let core : List Char → Option Nat := fun t =>
    match t with
    | '0' :: 'x' :: r => hexDigitsVal r
    | '0' :: 'X' :: r => hexDigitsVal r
    | r => hexDigitsVal r
  match l with
  | '+' :: t => (core t).map Int.ofNat
  | '-' :: t => (core t).map (fun n => -(n : Int))
  | t => (core t).map Int.ofNat

/-! ### Constants (src/firestarter/constants.py) -/

def BUFFER_SIZE : Nat := 512
def LEONARDO_BUFFER_SIZE : Nat := 1024
def COMMAND_READ : Nat := 1
def COMMAND_WRITE : Nat := 2
def COMMAND_ERASE : Nat := 3
def COMMAND_BLANK_CHECK : Nat := 4
def COMMAND_CHECK_CHIP_ID : Nat := 5
def COMMAND_VERIFY : Nat := 6
def COMMAND_DEV_ADDRESS : Nat := 7
def COMMAND_DEV_REGISTERS : Nat := 8
def COMMAND_FW_VERSION : Int := 13
def FLAG_FORCE : Nat := 0x01

/-! ### Response classifier (serial_comm.py, PREFIX_REGEX and
`_parse_response_line`) -/

def EXPECTED_PREFIXES : List String :=
  ["OK", "INFO", "DEBUG", "ERROR", "WARN", "DATA", "MAIN", "INIT", "END"]

def NON_RESPONSE_PREFIXES : List String := ["INFO", "DEBUG"]

/-- A parsed response line: `Response(type, message)`. -/
structure Response where
  type : Option String
  message : String
  deriving DecidableEq, Repr

/-- Word characters for the regex word boundary, ASCII domain. -/
def isWordChar (c : Char) : Bool :=
  c.isAlphanum || c = '_'

/-- Attempt of the pattern at one position: the word boundary must
hold between `prev` and the head of `l`, and one of the known tags followed by
a colon must start at `l`; the second capture group is the remainder of the
line.  The alternatives are mutually non-prefixing, so at any single position
at most one of them can be followed by a colon. -/
def tagMatchAt (prev : Option Char) (l : List Char) : Option (String × String) :=
  if (match prev with | none => true | some c => ¬ isWordChar c) then
    match EXPECTED_PREFIXES.find? (fun P => isPrefixL (P.data ++ [':']) l) with
    | some P => some (P, ⟨l.drop (P.data.length + 1)⟩)
    | none => none
  else none

/-- Leftmost match of the pattern, scanning the string position by
position as `re.search` does. -/
def searchTag (prev : Option Char) : List Char → Option (String × String)
  | [] => none
  | c :: t =>
    match tagMatchAt prev (c :: t) with
    | some r => some r
    | none => searchTag (some c) t

/-- Keep the printable bytes of a received line (32 ≤ b ≤ 126). -/
def filterPrintable (bs : List Nat) : List Nat :=
  bs.filter (fun b => 32 ≤ b && b ≤ 126)

/-- ASCII decoding of printable bytes. -/
def bytesToStr (bs : List Nat) : String :=
  ⟨bs.map Char.ofNat⟩

/-- ASCII encoding of a string. -/
def strBytes (s : String) : List Nat :=
  s.data.map Char.toNat

/-- Embedding of `SerialCommunicator._parse_response_line`. -/
def parse_response_line (bs : List Nat) : Option Response :=
  if bs = [] then none
  else
    let s := bytesToStr (filterPrintable bs)
    if s = "" then none
    else
      match searchTag none s.data with
      | some (t, rest) => some ⟨some t, pyStrip rest⟩
      | none => some ⟨none, s⟩

/-! ### Version gate (serial_comm.py, `_is_version_sufficient`) -/

/-- Python `str.replace("x", "999")` for a single-character needle. -/
def replX (l : List Char) : List Char :=
  (l.map (fun c => if c = 'x' then ['9', '9', '9'] else [c])).flatten

/-- Python `str.split(".")`. -/
def splitDot : List Char → List (List Char)
  | [] => [[]]
  | c :: t =>
    let r := splitDot t
    if c = '.' then [] :: r
    else
      match r with
      | h :: t2 => (c :: h) :: t2
      | [] => [[c]]

/-- The tuple of integer components of a version string after lowering and
replacing `x` by `999`; `none` when any component fails `int()`. -/
def parseVersionComponents (s : String) : Option (List Int) :=
  (splitDot (replX (pyLower s).data)).mapM (fun c => pyInt10 ⟨c⟩)

/-- Python tuple comparison `a >= b` (lexicographic, a strict prefix is
smaller). -/
def pyListGE : List Int → List Int → Bool
  | _, [] => true
  | [], _ :: _ => false
  | a :: as, b :: bs =>
    if a > b then true
    else if a < b then false
    else pyListGE as bs

/-- Embedding of `SerialCommunicator._is_version_sufficient`. -/
def is_version_sufficient (cur req : String) : Bool :=
  if cur = "" || req = "" then false
  else
    match parseVersionComponents cur, parseVersionComponents req with
    | some a, some b => pyListGE a b
    | _, _ => false

/-! ### Binary data block receive (serial_comm.py, `read_data_block`)

The stream models the bytes that arrive on the wire before the read
timeout: each `connection.read(n)` takes up to `n` bytes from the front of
the stream and an empty result means the timeout elapsed.  Several partial
arrivals collapse into one in this model; the loop in the source consumes
them identically. -/

inductive RBErr where
  | checksumMismatch
  | indexErr
  deriving DecidableEq, Repr

/-- XOR checksum `functools.reduce(operator.xor, data, 0)`. -/
def xorFold (l : List Nat) : Nat :=
  l.foldl Nat.xor 0

/-- Big-endian value of up to two bytes, `int.from_bytes(_, "big")`
(zero bytes give 0, as in Python). -/
def beVal (bs : List Nat) : Nat :=
  bs.foldl (fun a b => a * 256 + b) 0

/-- Embedding of `SerialCommunicator.read_data_block`: read a 2-byte
big-endian length, a 1-byte checksum, then payload bytes until the announced
count is reached or the stream runs dry; compare the XOR of the received
payload with the checksum byte; a short read is only logged.  An empty
checksum read makes `checksum_rcvd[0]` fail with `IndexError`. -/
def read_data_block (stream : List Nat) : Except RBErr (List Nat) :=
  let lenB := stream.take 2
  let s1 := stream.drop 2
  let num := beVal lenB
  let ckB := s1.take 1
  let s2 := s1.drop 1
  let data := s2.take num
  match ckB with
  | [] => .error .indexErr
  | ck :: _ =>
    if ck ≠ xorFold data then .error .checksumMismatch
    else .ok data

/-! ### Port discovery (serial_comm.py, `_list_potential_ports`,
`_probe_port`, `find_and_connect`) -/

/-- One entry of `serial.tools.list_ports.comports()`. -/
structure PortInfo where
  device : String
  manufacturer : Option String
  description : Option String
  deriving DecidableEq, Repr

/-- The vendor heuristics applied to one enumerated port. -/
def matchesHeuristics (p : PortInfo) : Bool :=
  (optTruthy p.manufacturer &&
    (containsSub (p.manufacturer.getD "") "Arduino" ||
     containsSub (p.manufacturer.getD "") "FTDI" ||
     containsSub (p.manufacturer.getD "") "CH340")) ||
  (optTruthy p.description && containsSub (p.description.getD "") "USB Serial")

/-- Embedding of `SerialCommunicator._list_potential_ports`: the preferred
port first (when truthy), then each enumerated device that is not already in
the list and matches the heuristics. -/
def list_potential_ports (preferred : Option String) (sys : List PortInfo) :
    List String :=
  let init := if optTruthy preferred then [preferred.getD ""] else []
  sys.foldl
    (fun ports p =>
      if ports.contains p.device then ports
      else if matchesHeuristics p then ports ++ [p.device]
      else ports)
    init

/-- The keys of the command dictionary that `_probe_port` inspects. -/
structure CmdDict where
  state : Option Int
  cmd : Option Int
  deriving DecidableEq, Repr

/-- Python `command_to_send.get("state") or command_to_send.get("cmd")`:
the first operand when it is truthy (present and nonzero), else the second. -/
def commandCode (d : CmdDict) : Option Int :=
  match d.state with
  | some v => if v ≠ 0 then some v else d.cmd
  | none => d.cmd

/-- Version characters of the class `[\d.x]`. -/
def isVerChar (c : Char) : Bool :=
  c.isDigit || c = '.' || c = 'x'

/-- Leftmost match of the version pattern `FW:` followed by optional
whitespace and a nonempty `[\d.x]` run, as `re.search` finds it. -/
def fwSearch : List Char → Option String
  | [] => none
  | c :: t =>
    let here : Option String :=
      if isPrefixL ['F', 'W', ':'] (c :: t) then
        let run := (((c :: t).drop 3).dropWhile isPySpace).takeWhile isVerChar
        if run = [] then none else some ⟨run⟩
      else none
    match here with
    | some r => some r
    | none => fwSearch t

/-- Behaviour of one candidate port during a probe.  `serialRaise` stands for
any `SerialError` (including timeouts) raised while draining input, sending
the command or waiting for the acknowledgement; `unexpected` for any other
exception reaching the blanket handler. -/
inductive AckOut where
  | serialRaise
  | unexpected
  | result (ok : Bool) (msg : Option String)
  deriving DecidableEq, Repr

structure ProbeEnv where
  connectOk : Bool
  ack : AckOut
  deriving DecidableEq, Repr

inductive ProbeRes where
  | found (info : Option String)
  | nothing
  | fwOut
  deriving DecidableEq, Repr

/-- Embedding of `SerialCommunicator._probe_port`.  The second component
counts how many times the connection of this port was closed. -/
def probe_port (env : ProbeEnv) (cmd : CmdDict) : ProbeRes × Nat :=
  if ¬ env.connectOk then (.nothing, 0)
  else
    match env.ack with
    | .serialRaise => (.nothing, 1)
    | .unexpected => (.nothing, 1)
    | .result false _ => (.nothing, 1)
    | .result true msg =>
      if commandCode cmd = some COMMAND_FW_VERSION then (.found msg, 0)
      else
        if optTruthy msg && containsSub (msg.getD "") "FW:" then
          match fwSearch (msg.getD "").data with
          | some v =>
            if is_version_sufficient (pyStrip v) "2.0.0" then (.found msg, 0)
            else (.fwOut, 1)
          | none => (.fwOut, 1)
        else (.fwOut, 1)

inductive FindErr where
  | noPorts
  | fwOutdated
  | notFound
  deriving DecidableEq, Repr

/-- The probing loop of `find_and_connect`: try each candidate in order;
a found programmer returns at once, a `FirmwareOutdatedError` re-raises at
once, any other failure advances.  The trace records each probed port with
its close count. -/
def probeLoop (envOf : String → ProbeEnv) (cmd : CmdDict) :
    List String → Except FindErr (String × Option String) × List (String × Nat)
  | [] => (.error .notFound, [])
  | p :: rest =>
    match probe_port (envOf p) cmd with
    | (.found info, k) => (.ok (p, info), [(p, k)])
    | (.fwOut, k) => (.error .fwOutdated, [(p, k)])
    | (.nothing, k) =>
      let (r, tr) := probeLoop envOf cmd rest
      (r, (p, k) :: tr)

/-- Embedding of `SerialCommunicator.find_and_connect`: fall back to the
persisted port when no explicit port was given, build the candidate list, and
probe it. -/
def find_and_connect (cmd : CmdDict) (explicit configPort : Option String)
    (sys : List PortInfo) (envOf : String → ProbeEnv) :
    Except FindErr (String × Option String) × List (String × Nat) :=
  let preferred := if optTruthy explicit then explicit else configPort
  let candidates := list_potential_ports preferred sys
  if candidates = [] then (.error .noPorts, [])
  else probeLoop envOf cmd candidates

/-- First-occurrence de-duplication, used to state the candidate-order
claims. -/
def dedupKeepFirst (l : List String) : List String :=
  l.foldl (fun acc d => if acc.contains d then acc else acc ++ [d]) []

/-! ### EPROM operations (eprom_operations.py)

The `EpromOperator` methods drive an abstract communicator whose behaviour
is given by a finite script of events.  Each communicator call takes the
next relevant event; an exhausted script makes a response wait time out,
exactly as the bounded waits in the source eventually do.  `boom` injects an
exception that none of the handlers in this module catch (as the narrow
`except` clauses of the source let unrelated exceptions pass). -/

/-- Python exceptions that the operation code distinguishes. -/
inductive PyErr where
  | serialErr
  | timeoutErr
  | epromOpErr
  | ioErr
  | otherErr
  deriving DecidableEq, Repr

/-- One scripted event of a device interaction. -/
inductive SEv where
  | resp (t : Option String) (m : String)
  | timeout
  | sendFail
  | blockOk (d : List Nat)
  | blockFail
  | boom
  deriving DecidableEq, Repr

/-- Is the error caught by `except (SerialError, SerialTimeoutError)` (and by
the `except (ProgrammerNotFoundError, SerialError)` of `_setup_operation`,
since every raised error of that family is a `SerialError` subclass)? -/
def caughtSerial : PyErr → Bool
  | .serialErr => true
  | .timeoutErr => true
  | _ => false

/-- A `send_bytes`/`send_string` call: it fails only when the script injects
a failure at this point; otherwise the frame goes on the wire. -/
def sendAux (d : List Nat) : List SEv → List (List Nat) →
    Except PyErr (List SEv × List (List Nat))
  | .sendFail :: _, _ => .error .serialErr
  | .boom :: _, _ => .error .otherErr
  | sc, w => .ok (sc, w ++ [d])

/-- A `read_data_block` call of the communicator used by this module: the
script supplies the returned chunk or injects an error; with no scripted
block the read yields no bytes. -/
def readBlockAux : List SEv → Except PyErr (List Nat × List SEv)
  | .blockOk d :: rest => .ok (d, rest)
  | .blockFail :: _ => .error .serialErr
  | .boom :: _ => .error .otherErr
  | sc => .ok ([], sc)

/-- The `expect_ok` wait (named `expect_ack` in serial_comm.py): consume
responses until an `OK` or `ERROR` arrives; other lines are skipped by the
wait; a drained script is a timeout. -/
def expectOkAux : List SEv → Except PyErr ((Bool × Option String) × List SEv)
  | [] => .error .timeoutErr
  | .resp (some "OK") m :: rest => .ok ((true, some m), rest)
  | .resp (some "ERROR") m :: rest => .ok ((false, some m), rest)
  | .timeout :: _ => .error .timeoutErr
  | .boom :: _ => .error .otherErr
  | _ :: rest => expectOkAux rest

/-- The ASCII bytes of the acknowledgement string `"OK"`. -/
def OKbytes : List Nat := [79, 75]

/-- The EPROM record fields that the operations read
(`eprom_data_dict`): capability flags and `memory-size`. -/
structure EpromData where
  flags : Nat
  memSize : Int
  deriving DecidableEq, Repr

/-- The command dictionary built by `_setup_operation`. -/
structure CmdRec where
  cmd : Nat
  flags : Nat
  address : Option Int
  memSize : Int
  deriving DecidableEq, Repr

/-- Result of `_setup_operation`: the command record and buffer size when it
succeeded, and whether `self.comm` now holds a session. -/
structure SetupRes where
  crec : Option CmdRec
  buf : Nat
  commSet : Bool
  deriving DecidableEq, Repr

/-- Address and size strings are parsed with
`int(s, 16) if "0x" in s.lower() else int(s)`. -/
def pyIntAuto (s : String) : Option Int :=
  if containsSub (pyLower s) "0x" then pyInt16 s else pyInt10 s

/-- Embedding of `EpromOperator._calculate_buffer_size`. -/
def calculate_buffer_size (info : Option String) : Nat :=
  match info with
  | some s =>
    if s ≠ "" && containsSub (pyLower s) "leonardo" then LEONARDO_BUFFER_SIZE
    else BUFFER_SIZE
  | none => BUFFER_SIZE

/-- Embedding of `EpromOperator._setup_operation`.  `connect` is the outcome
of `SerialCommunicator.find_and_connect`: a session with its identity string,
or a raised error (`serialErr` covers the whole `SerialError` family, which
the method catches; anything else propagates). -/
def setup_operation (connect : Except PyErr (Option String)) (ed : EpromData)
    (cmd : Nat) (opFlags : Nat) (addressStr sizeStr : Option String) :
    Except PyErr SetupRes :=
  let flags := ed.flags ||| opFlags
  let addrStep : Except Unit (Option Int) :=
    if optTruthy addressStr then
      match pyIntAuto (addressStr.getD "") with
      | some a => .ok (some a)
      | none => .error ()
    else .ok none
  match addrStep with
  | .error _ => .ok ⟨none, 0, false⟩
  | .ok addr =>
    let sizeStep : Except Unit Int :=
      if cmd = COMMAND_READ && optTruthy sizeStr then
        match pyIntAuto (sizeStr.getD "") with
        | some sz => .ok (addr.getD 0 + sz)
        | none => .error ()
      else .ok ed.memSize
    match sizeStep with
    | .error _ => .ok ⟨none, 0, false⟩
    | .ok memSize =>
      match connect with
      | .ok info => .ok ⟨some ⟨cmd, flags, addr, memSize⟩, calculate_buffer_size info, true⟩
      | .error e => if caughtSerial e then .ok ⟨none, 0, false⟩ else .error e

/-- Outcome of one public operation: the returned value or propagated
exception, the number of times the session connection was closed, whether a
session had been established, and the frames written to the wire on the
non-raising paths. -/
structure FacadeOut where
  result : Except PyErr Bool
  closes : Nat
  established : Bool
  wire : List (List Nat)
  deriving Repr

/-- Embedding of `EpromOperator._disconnect_programmer`: close the session
when one is live and clear the reference, so a second call cannot close
again. -/
def disconnect_programmer : Option Unit → Option Unit × Nat
  | some _ => (none, 1)
  | none => (none, 0)

/-- The shared `try ... except ... finally: self._disconnect_programmer()`
epilogue of the public operations: map the body outcome through the catch
predicate of the operation and run the disconnect of the `finally` block. -/
def finishOp (commSet : Bool) (body : Except PyErr (Bool × List (List Nat)))
    (catchP : PyErr → Bool) : FacadeOut :=
  let comm : Option Unit := if commSet then some () else none
  let rw : Except PyErr Bool × List (List Nat) :=
    match body with
    | .ok (b, w) => (.ok b, w)
    | .error e => (if catchP e then .ok false else .error e, [])
  let dk := disconnect_programmer comm
  ⟨rw.1, dk.2, commSet, rw.2⟩

/-- The outcome of an operation that returned or raised before any session
existed (its `finally`, when there is one, closes nothing). -/
def noSessionOut (r : Except PyErr Bool) : FacadeOut :=
  ⟨r, 0, false, []⟩

/-! #### Device-to-host read loop (read_eprom lines 402-431, dev_read) -/

/-- The read transfer loop: wait for a significant response; `DATA` reads one
block, acknowledges it and advances; an empty block breaks out (completing);
`OK` completes; `ERROR` and every other significant kind raise
`EpromOperationError`.  Fuel bounds the iterations; the caller passes more
fuel than the script can feed, so running out coincides with the script
being drained, i.e. with a response timeout. -/
def read_loop : Nat → Int → Int → List SEv → List (List Nat) →
    Except PyErr (Bool × List SEv × List (List Nat))
  | 0, _, _, _, _ => .error .timeoutErr
  | f + 1, total, got, sc, w =>
    if got < total then
      match sc with
      | [] => .error .timeoutErr
      | ev :: rest =>
        match ev with
        | .resp (some t) _m =>
          if NON_RESPONSE_PREFIXES.contains t then
            read_loop f total got rest w
          else if t = "DATA" then
            match readBlockAux rest with
            | .error e => .error e
            | .ok (d, rest2) =>
              if d = [] then .ok (true, rest2, w)
              else
                match sendAux OKbytes rest2 w with
                | .error e => .error e
                | .ok (rest3, w2) =>
                  read_loop f total (got + d.length) rest3 w2
          else if t = "OK" then .ok (true, rest, w)
          else if t = "ERROR" then .error .epromOpErr
          else .error .epromOpErr
        | .resp none _ => read_loop f total got rest w
        | .timeout => .error .timeoutErr
        | .boom => .error .otherErr
        | _ => read_loop f total got rest w
    else .ok (true, sc, w)

/-- Body of `read_eprom` after setup: open the output file, validate the
range, send the initial acknowledgement and run the read loop. -/
def read_body (rc : CmdRec) (outOpenOk : Bool) (sc : List SEv) :
    Except PyErr (Bool × List (List Nat)) :=
  if ¬ outOpenOk then .error .ioErr
  else
    let total : Int := rc.memSize - rc.address.getD 0
    if total ≤ 0 then .ok (false, [])
    else
      match sendAux OKbytes sc [] with
      | .error e => .error e
      | .ok (sc1, w1) =>
        match read_loop (sc1.length + 1) total 0 sc1 w1 with
        | .error e => .error e
        | .ok (b, _, w2) => .ok (b, w2)

/-- The exceptions `read_eprom` catches and turns into a `False` result. -/
def readCatch : PyErr → Bool
  | .epromOpErr => true
  | .serialErr => true
  | .timeoutErr => true
  | .ioErr => true
  | _ => false

/-- Embedding of `EpromOperator.read_eprom`. -/
def read_eprom (connect : Except PyErr (Option String)) (ed : EpromData)
    (opFlags : Nat) (addressStr sizeStr : Option String) (outOpenOk : Bool)
    (sc : List SEv) : FacadeOut :=
  match setup_operation connect ed COMMAND_READ opFlags addressStr sizeStr with
  | .error e => noSessionOut (.error e)
  | .ok s =>
    match s.crec, s.commSet with
    | some rc, true => finishOp true (read_body rc outOpenOk sc) readCatch
    | _, _ => noSessionOut (.ok false)

/-- Body of `dev_read_eprom` after setup: like the read loop but dumping to
the log, and returning `True` whenever the loop completes. -/
def dev_read_body (rc : CmdRec) (sc : List SEv) :
    Except PyErr (Bool × List (List Nat)) :=
  let total : Int := rc.memSize - rc.address.getD 0
  match sendAux OKbytes sc [] with
  | .error e => .error e
  | .ok (sc1, w1) =>
    match read_loop (sc1.length + 1) total 0 sc1 w1 with
    | .error e => .error e
    | .ok (_, _, w2) => .ok (true, w2)

/-- The exceptions `dev_read_eprom` catches. -/
def devReadCatch : PyErr → Bool
  | .epromOpErr => true
  | .serialErr => true
  | .timeoutErr => true
  | _ => false

/-- Embedding of `EpromOperator.dev_read_eprom` (the size string defaults to
`"256"` when absent). -/
def dev_read_eprom (connect : Except PyErr (Option String)) (ed : EpromData)
    (addressStr : Option String) (sizeStr : Option String) (opFlags : Nat)
    (sc : List SEv) : FacadeOut :=
  let sizeEff : Option String := some (sizeStr.getD "256")
  match setup_operation connect ed COMMAND_READ opFlags addressStr sizeEff with
  | .error e => noSessionOut (.error e)
  | .ok s =>
    match s.crec, s.commSet with
    | some rc, true => finishOp true (dev_read_body rc sc) devReadCatch
    | _, _ => noSessionOut (.ok false)

/-! #### Host-to-device write loop (`_send_file_to_programmer`) -/

/-- The 2-byte big-endian length frame `len(data).to_bytes(2, "big")`
(for lengths below 65536, which the buffer-size bound on every file read
guarantees in the source). -/
def toBytes2 (n : Nat) : List Nat :=
  [n / 256 % 256, n % 256]

/-- The source-exhausted tail of the write loop: send one zero-length frame
and return whatever the final `expect_ok` acknowledgement says. -/
def sendZeroChunk (sc : List SEv) (w : List (List Nat)) :
    Except PyErr (Bool × List SEv × List (List Nat)) :=
  match sendAux (toBytes2 0) sc w with
  | .error e => .error e
  | .ok (sc1, w1) =>
    match expectOkAux sc1 with
    | .error e => .error e
    | .ok ((isOk, _), sc2) => .ok (isOk, sc2, w1)

/-- The write/verify transfer loop of `_send_file_to_programmer`: for each
chunk read from the file, send its length frame, wait for `OK`, send the
payload, wait for `OK`; a read of zero bytes sends the zero-length
end-of-data frame instead.  `chunks` are the successive results of
`file_handle.read(buffer_size)`; after the list is drained reads yield no
bytes. -/
def send_file_loop : List (List Nat) → List SEv → List (List Nat) →
    Except PyErr (Bool × List SEv × List (List Nat))
  | [], sc, w => sendZeroChunk sc w
  | c :: cs, sc, w =>
    if c = [] then sendZeroChunk sc w
    else
      match sendAux (toBytes2 c.length) sc w with
      | .error e => .error e
      | .ok (sc1, w1) =>
        match expectOkAux sc1 with
        | .error e => .error e
        | .ok ((false, _), sc2) => .ok (false, sc2, w1)
        | .ok ((true, _), sc2) =>
          match sendAux c sc2 w1 with
          | .error e => .error e
          | .ok (sc3, w2) =>
            match expectOkAux sc3 with
            | .error e => .error e
            | .ok ((false, _), sc4) => .ok (false, sc4, w2)
            | .ok ((true, _), sc4) => send_file_loop cs sc4 w2

/-- Embedding of `EpromOperator._send_file_to_programmer`: a missing input
file returns `False` before anything is sent; serial, timeout and operation
errors inside the loop are caught and return `False`; anything else
propagates to the caller. -/
def send_file_to_programmer (fileExists : Bool) (chunks : List (List Nat))
    (sc : List SEv) : Except PyErr (Bool × List (List Nat)) :=
  if ¬ fileExists then .ok (false, [])
  else
    match send_file_loop chunks sc [] with
    | .ok (b, _, w) => .ok (b, w)
    | .error e =>
      if caughtSerial e || e = .epromOpErr then .ok (false, [])
      else .error e

/-- Common shape of `write_eprom` and `verify_eprom` (they differ only in the
command code): setup, run the file transfer, and disconnect in `finally`;
these two methods have no `except` clause of their own. -/
def write_like (cmd : Nat) (connect : Except PyErr (Option String))
    (ed : EpromData) (opFlags : Nat) (addressStr : Option String)
    (fileExists : Bool) (chunks : List (List Nat)) (sc : List SEv) :
    FacadeOut :=
  match setup_operation connect ed cmd opFlags addressStr none with
  | .error e => noSessionOut (.error e)
  | .ok s =>
    match s.crec, s.commSet with
    | some _, true =>
      finishOp true (send_file_to_programmer fileExists chunks sc)
        (fun _ => false)
    | _, _ => noSessionOut (.ok false)

/-- Embedding of `EpromOperator.write_eprom`. -/
def write_eprom (connect : Except PyErr (Option String)) (ed : EpromData)
    (opFlags : Nat) (addressStr : Option String) (fileExists : Bool)
    (chunks : List (List Nat)) (sc : List SEv) : FacadeOut :=
  write_like COMMAND_WRITE connect ed opFlags addressStr fileExists chunks sc

/-- Embedding of `EpromOperator.verify_eprom`. -/
def verify_eprom (connect : Except PyErr (Option String)) (ed : EpromData)
    (opFlags : Nat) (addressStr : Option String) (fileExists : Bool)
    (chunks : List (List Nat)) (sc : List SEv) : FacadeOut :=
  write_like COMMAND_VERIFY connect ed opFlags addressStr fileExists chunks sc

/-! #### Simple commands (erase, blank check) and chip-id check -/

/-- Body of `_perform_simple_command` after setup: acknowledge, then wait for
the final `OK`/`ERROR`. -/
def simple_body (sc : List SEv) : Except PyErr (Bool × List (List Nat)) :=
  match sendAux OKbytes sc [] with
  | .error e => .error e
  | .ok (sc1, w1) =>
    match expectOkAux sc1 with
    | .error e => .error e
    | .ok ((isOk, _), _) => .ok (isOk, w1)

/-- Embedding of `EpromOperator._perform_simple_command`. -/
def perform_simple_command (connect : Except PyErr (Option String))
    (ed : EpromData) (cmd : Nat) (opFlags : Nat) (sc : List SEv) : FacadeOut :=
  match setup_operation connect ed cmd opFlags none none with
  | .error e => noSessionOut (.error e)
  | .ok s =>
    match s.crec, s.commSet with
    | some _, true => finishOp true (simple_body sc) caughtSerial
    | _, _ => noSessionOut (.ok false)

/-- Embedding of `EpromOperator.erase_eprom`. -/
def erase_eprom (connect : Except PyErr (Option String)) (ed : EpromData)
    (opFlags : Nat) (sc : List SEv) : FacadeOut :=
  perform_simple_command connect ed COMMAND_ERASE opFlags sc

/-- Embedding of `EpromOperator.check_eprom_blank`. -/
def check_eprom_blank (connect : Except PyErr (Option String)) (ed : EpromData)
    (opFlags : Nat) (sc : List SEv) : FacadeOut :=
  perform_simple_command connect ed COMMAND_BLANK_CHECK opFlags sc

/-- Embedding of `extract_hex_to_decimal` (utils.py): leftmost occurrence of
`0x`/`0X` followed by at least one hexadecimal digit, converted to its
value. -/
def extract_hex_to_decimal : List Char → Option Nat
  | [] => none
  | c :: t =>
    let here : Option Nat :=
      if c = '0' then
        match t with
        | x :: r =>
          if x = 'x' || x = 'X' then
            let run := r.takeWhile (fun d =>
              d.isDigit || ('a' ≤ d && d ≤ 'f') || ('A' ≤ d && d ≤ 'F'))
            if run = [] then none else hexDigitsVal run
          else none
        | [] => none
      else none
    match here with
    | some v => some v
    | none => extract_hex_to_decimal t

/-- Body of `check_eprom_id` after setup: acknowledge and wait; on `OK` the
check passed; on `ERROR` the reported identifier is extracted (for logging
and a database lookup) and the method returns exactly the `FLAG_FORCE` bit of
the combined command flags. -/
def check_id_body (rc : CmdRec) (db : Nat → Bool) (sc : List SEv) :
    Except PyErr (Bool × List (List Nat)) :=
  match sendAux OKbytes sc [] with
  | .error e => .error e
  | .ok (sc1, w1) =>
    match expectOkAux sc1 with
    | .error e => .error e
    | .ok ((true, _), _) => .ok (true, w1)
    | .ok ((false, m), _) =>
      let chip := extract_hex_to_decimal (m.getD "").data
      let _found := chip.map db
      .ok (((rc.flags &&& FLAG_FORCE) != 0), w1)

/-- Embedding of `EpromOperator.check_eprom_id`; `db` answers the
`search_chip_id` lookups used only for logging. -/
def check_eprom_id (connect : Except PyErr (Option String)) (ed : EpromData)
    (opFlags : Nat) (db : Nat → Bool) (sc : List SEv) : FacadeOut :=
  match setup_operation connect ed COMMAND_CHECK_CHIP_ID opFlags none none with
  | .error e => noSessionOut (.error e)
  | .ok s =>
    match s.crec, s.commSet with
    | some rc, true => finishOp true (check_id_body rc db sc) caughtSerial
    | _, _ => noSessionOut (.ok false)

/-! #### Developer register/address commands -/

/-- Register strings are parsed with
`int(s, 16) if "0x" in s else int(s)` (note: no lowering here). -/
def pyIntReg (s : String) : Option Int :=
  if containsSub s "0x" then pyInt16 s else pyInt10 s

/-- Body of `dev_set_registers` after connecting: acknowledge, send the four
register bytes, and wait for the final acknowledgement. -/
def regs_body (msb lsb ctrl : Int) (firestarter : Bool) (sc : List SEv) :
    Except PyErr (Bool × List (List Nat)) :=
  match sendAux OKbytes sc [] with
  | .error e => .error e
  | .ok (sc1, w1) =>
    match sendAux
        [msb.toNat, lsb.toNat,
         (if firestarter then 0x80 else 0x00) ||| ((ctrl.toNat >>> 8) &&& 0x01),
         ctrl.toNat &&& 0xFF] sc1 w1 with
    | .error e => .error e
    | .ok (sc2, w2) =>
      match expectOkAux sc2 with
      | .error e => .error e
      | .ok ((isOk, _), _) => .ok (isOk, w2)

/-- Embedding of `EpromOperator.dev_set_registers`: parse and validate the
three register values (a parse failure raises `ValueError` before anything is
connected), connect directly, and run the body under the usual
`finally`-disconnect. -/
def dev_set_registers (msbStr lsbStr ctrlStr : String) (firestarter : Bool)
    (connect : Except PyErr (Option String)) (sc : List SEv) : FacadeOut :=
  match pyIntReg msbStr, pyIntReg lsbStr, pyIntReg ctrlStr with
  | some msb, some lsb, some ctrl =>
    if msb < 0 || msb > 0xFF then noSessionOut (.ok false)
    else if lsb < 0 || lsb > 0xFF then noSessionOut (.ok false)
    else if ctrl < 0 || (ctrl > 0x1FF && firestarter)
        || (ctrl > 0xFF && ¬ firestarter) then noSessionOut (.ok false)
    else
      match connect with
      | .ok _ => finishOp true (regs_body msb lsb ctrl firestarter sc) caughtSerial
      | .error e =>
        if caughtSerial e then noSessionOut (.ok false)
        else noSessionOut (.error e)
  | _, _, _ => noSessionOut (.error .otherErr)

/-- Body of `dev_set_address_mode` after setup: the method reads
`command_eprom_data["address"]` (a missing key raises `KeyError`) and then
waits for the acknowledgement. -/
def addr_body (rc : CmdRec) (sc : List SEv) :
    Except PyErr (Bool × List (List Nat)) :=
  match rc.address with
  | none => .error .otherErr
  | some _ =>
    match expectOkAux sc with
    | .error e => .error e
    | .ok ((isOk, _), _) => .ok (isOk, [])

/-- Embedding of `EpromOperator.dev_set_address_mode`.  Unlike the other
operations its `try`/`finally` wraps the setup call as well, so every arm
goes through the disconnect epilogue (closing nothing when no session was
made). -/
def dev_set_address_mode (connect : Except PyErr (Option String))
    (ed : EpromData) (addressStr : String) (opFlags : Nat) (sc : List SEv) :
    FacadeOut :=
  match setup_operation connect ed COMMAND_DEV_ADDRESS opFlags
      (some addressStr) none with
  | .error e => finishOp false (.error e) caughtSerial
  | .ok s =>
    match s.crec, s.commSet with
    | some rc, true => finishOp true (addr_body rc sc) caughtSerial
    | _, _ => finishOp false (.ok (false, [])) caughtSerial

/-- A script of `n` bare `OK` acknowledgements. -/
def allOkScript (n : Nat) : List SEv :=
  List.replicate n (.resp (some "OK") "")

/-- The frames the write loop actually puts on the wire for a chunk list:
for each chunk its 2-byte big-endian length then the raw payload, and one
zero-length frame at the end.  No sentinel byte and no checksum byte
appear. -/
def wireFrames : List (List Nat) → List (List Nat)
  | [] => [[0, 0]]
  | c :: cs => toBytes2 c.length :: c :: wireFrames cs

/-- The disconnect budget of one operation outcome: the session connection
was closed exactly once when a session had been established and was never
touched otherwise. -/
def closesOnce (o : FacadeOut) : Prop :=
  o.closes = if o.established then 1 else 0

/-! ## Theorems for the claims -/

/-- A successful scan implies the matched tag is one of the known ones and
the tag followed by a colon occurs in the scanned text. -/
theorem searchTag_mem_contains (l : List Char) (prev : Option Char)
    (P : String) (r : String) (h : searchTag prev l = some (P, r)) :
    P ∈ EXPECTED_PREFIXES ∧ containsAux (P.data ++ [':']) l = true := by
  induction l generalizing prev with
  | nil => simp [searchTag] at h
  | cons c t ih =>
    rw [searchTag] at h
    cases hm : tagMatchAt prev (c :: t) with
    | some pr =>
      rw [hm] at h
      cases h
      unfold tagMatchAt at hm
      split at hm
      · cases hf : EXPECTED_PREFIXES.find? (fun P => isPrefixL (P.data ++ [':']) (c :: t)) with
        | some P2 =>
          rw [hf] at hm
          cases hm
          refine ⟨List.mem_of_find?_eq_some hf, ?_⟩
          have hpred := List.find?_some hf
          rw [containsAux]
          simp only [hpred, Bool.true_or]
        | none => rw [hf] at hm; cases hm
      · cases hm
    | none =>
      rw [hm] at h
      have := ih (some c) h
      refine ⟨this.1, ?_⟩
      rw [containsAux]
      simp [this.2]

/-- Claim C7: every known tag preceded by noise classifies as that kind with
the trimmed trailing text as message, and a line in which no known tag
followed by a colon occurs at all classifies as an untyped event carrying
the whole (printable-filtered) line. -/
theorem C7_classifier :
    (∀ P ∈ EXPECTED_PREFIXES,
       parse_response_line (strBytes ("noise " ++ P ++ ": hello world")) =
         some ⟨some P, "hello world"⟩)
    ∧ (∀ bs : List Nat, bs ≠ [] →
       bytesToStr (filterPrintable bs) ≠ "" →
       (∀ P ∈ EXPECTED_PREFIXES,
          containsSub (bytesToStr (filterPrintable bs)) (P ++ ":") = false) →
       parse_response_line bs = some ⟨none, bytesToStr (filterPrintable bs)⟩) := by
  constructor
  · decide
  · intro bs hne hs hnc
    unfold parse_response_line
    rw [if_neg hne, if_neg hs]
    cases hsearch : searchTag none (bytesToStr (filterPrintable bs)).data with
    | none => rfl
    | some pr =>
      exfalso
      obtain ⟨P, r⟩ := pr
      have hmc := searchTag_mem_contains _ _ _ _ hsearch
      have hfalse := hnc P hmc.1
      rw [containsSub] at hfalse
      have : (P ++ ":").data = P.data ++ [':'] := by
        rw [String.data_append]
      rw [this] at hfalse
      rw [hmc.2] at hfalse
      cases hfalse

/-- Claim C7 witness: the unclassified case applied at the concrete line
`hello`, with every hypothesis checked by evaluation. -/
theorem C7_witness :
    parse_response_line (strBytes "hello") =
      some ⟨none, bytesToStr (filterPrintable (strBytes "hello"))⟩ :=
  C7_classifier.2 (strBytes "hello") (by decide) (by decide) (by decide)

/-- Claim C8, counterexample: against the minimum `2.0.1000` the version
`2.0.x` is rejected, so the literal `x` is not treated as the maximum
possible value of its component (it stands for 999). -/
theorem C8_counterexample :
    is_version_sufficient "2.0.x" "2.0.1000" = false := by decide

/-- Claim C8 as amended: versions compare component-wise as integers after
the literal `x` is replaced by 999 (an upper sentinel, maximal only against
components below 1000); `2.0.x` satisfies minimum `2.0.0`, `1.9.9` does not,
and a missing or unparsable version string is insufficient. -/
theorem C8_amended_gate :
    parseVersionComponents "2.0.x" = some [2, 0, 999]
    ∧ is_version_sufficient "2.0.x" "2.0.0" = true
    ∧ is_version_sufficient "1.9.9" "2.0.0" = false
    ∧ (∀ req, is_version_sufficient "" req = false)
    ∧ is_version_sufficient "no.version" "2.0.0" = false
    ∧ is_version_sufficient "2.0.x" "2.0.999" = true := by
  refine ⟨by decide, by decide, by decide, ?_, by decide, by decide⟩
  intro req
  simp [is_version_sufficient]

/-- Claim C4, counterexample: a block announcing 2 payload bytes of which
only one arrives before the timeout is returned (short, one byte long)
instead of raising, because the XOR of the received byte matches the
checksum byte; the claim asserts a short read always raises. -/
theorem C4_counterexample :
    read_data_block [0, 2, 1, 1] = .ok [1] ∧ beVal [0, 2] = 2 ∧
      ([1] : List Nat).length < 2 :=
  ⟨rfl, rfl, by decide⟩

/-- Claim C4 as amended: `read_data_block` raises exactly on a checksum
mismatch, computed over the bytes actually received; a short read whose
received bytes match the checksum byte is only logged and the partial data
is returned. -/
theorem C4_amended_checks :
    (∀ (b1 b0 ck : Nat) (rest : List Nat),
       ck ≠ xorFold (rest.take (b1 * 256 + b0)) →
       read_data_block (b1 :: b0 :: ck :: rest) = .error .checksumMismatch)
    ∧ (∀ (b1 b0 ck : Nat) (rest : List Nat),
       rest.length < b1 * 256 + b0 →
       ck = xorFold rest →
       read_data_block (b1 :: b0 :: ck :: rest) = .ok rest) := by
  constructor
  · intro b1 b0 ck rest h
    simp only [read_data_block, List.take, List.drop]
    have hbe : beVal [b1, b0] = b1 * 256 + b0 := by
      simp [beVal, List.foldl]
    rw [hbe]
    simp [h]
  · intro b1 b0 ck rest hlen hck
    simp only [read_data_block, List.take, List.drop]
    have hbe : beVal [b1, b0] = b1 * 256 + b0 := by
      simp [beVal, List.foldl]
    rw [hbe]
    have htake : rest.take (b1 * 256 + b0) = rest :=
      List.take_of_length_le (le_of_lt hlen)
    rw [htake]
    simp [hck]

/-- Claim C4 witness: both amended statements applied at concrete blocks. -/
theorem C4_witness :
    read_data_block [0, 1, 5, 9] = .error .checksumMismatch ∧
      read_data_block [0, 3, 1, 1] = .ok [1] :=
  ⟨C4_amended_checks.1 0 1 5 [9] (by decide),
   C4_amended_checks.2 0 3 1 [1] (by decide) (by decide)⟩

/-- Claim C10: when the chip-id check gets a device `ERROR` reply instead of
`OK`, the method returns exactly the `FLAG_FORCE` bit of the combined flags
`chip_flags | operation_flags`, whatever the error message says and whether
or not a hexadecimal identifier can be extracted from it. -/
theorem C10_force_flag (info : Option String) (ed : EpromData)
    (opFlags : Nat) (db : Nat → Bool) (m : String) (rest : List SEv) :
    (check_eprom_id (.ok info) ed opFlags db
        (.resp (some "ERROR") m :: rest)).result =
      .ok (((ed.flags ||| opFlags) &&& FLAG_FORCE) != 0) := by
  rfl

/-- Claim C5, counterexample: in the read transfer loop a `MAIN` event makes
the operation fail (it falls into the unexpected-response arm and raises
`EpromOperationError`, caught into a `False` result) instead of completing
the transfer, and a `WARN` event equally fails the operation instead of
being merely logged; the kind that completes the transfer is `OK`. -/
theorem C5_counterexample :
    (read_eprom (.ok (some "fw")) ⟨0, 10⟩ 0 none none true
        [.resp (some "MAIN") "done"]).result = .ok false
    ∧ (read_eprom (.ok (some "fw")) ⟨0, 10⟩ 0 none none true
        [.resp (some "WARN") "w"]).result = .ok false
    ∧ (read_eprom (.ok (some "fw")) ⟨0, 10⟩ 0 none none true
        [.resp (some "OK") ""]).result = .ok true :=
  ⟨rfl, rfl, rfl⟩

/-- Claim C5 as amended: in the read loop an `OK` event terminates the
transfer successfully, while `MAIN` and `WARN` (like every significant kind
other than `DATA`, `OK`, `ERROR`) raise `EpromOperationError`, which the
operation turns into a failure result. -/
theorem C5_amended_events (f : Nat) (total got : Int) (m : String)
    (rest : List SEv) (w : List (List Nat)) (h : got < total) :
    read_loop (f + 1) total got (.resp (some "OK") m :: rest) w =
        .ok (true, rest, w)
    ∧ read_loop (f + 1) total got (.resp (some "MAIN") m :: rest) w =
        .error .epromOpErr
    ∧ read_loop (f + 1) total got (.resp (some "WARN") m :: rest) w =
        .error .epromOpErr := by
  refine ⟨?_, ?_, ?_⟩ <;> simp [read_loop, h, NON_RESPONSE_PREFIXES]

/-- Claim C5 witness: the amended statement applied with one unit of fuel,
a drained tail and the range 0 < 1. -/
theorem C5_witness :
    read_loop 1 1 0 [.resp (some "OK") "done"] [] = .ok (true, [], []) ∧
      read_loop 1 1 0 [.resp (some "MAIN") "done"] [] = .error .epromOpErr :=
  ⟨(C5_amended_events 0 1 0 "done" [] [] (by decide)).1,
   (C5_amended_events 0 1 0 "done" [] [] (by decide)).2.1⟩

/-- A successful send leaves the script alone and appends exactly one frame
to the wire. -/
theorem sendAux_ok (d : List Nat) (sc sc2 : List SEv)
    (w w2 : List (List Nat)) (h : sendAux d sc w = .ok (sc2, w2)) :
    sc2 = sc ∧ w2 = w ++ [d] := by
  unfold sendAux at h
  split at h
  · cases h
  · cases h
  · cases h; exact ⟨rfl, rfl⟩

/-- Claim C6, counterexample: with the source exhausted immediately and a
device that answers only with `MAIN`, the transfer does not conclude — the
acknowledgement wait skips the `MAIN` event and times out, and the operation
reports failure; the loop waits for an `OK` acknowledgement, not for a
`MAIN` event. -/
theorem C6_counterexample :
    send_file_loop [] [.resp (some "MAIN") ""] [] = .error .timeoutErr
    ∧ send_file_to_programmer true [] [.resp (some "MAIN") ""] = .ok (false, [])
    ∧ send_file_loop [] [.resp (some "OK") ""] [] = .ok (true, [], [[0, 0]]) :=
  ⟨rfl, rfl, rfl⟩

/-- Claim C6 as amended: when the source is exhausted, exactly one
zero-length frame is sent and nothing after it (every terminating run adds
exactly that frame to the wire); the loop then waits for a final `OK`
acknowledgement — `OK` concludes the transfer successfully, while a `MAIN`
event is skipped by the acknowledgement wait. -/
theorem C6_amended_terminator :
    (∀ (sc sc2 : List SEv) (w w2 : List (List Nat)) (b : Bool),
       send_file_loop [] sc w = .ok (b, sc2, w2) → w2 = w ++ [[0, 0]])
    ∧ (∀ (m : String) (rest : List SEv) (w : List (List Nat)),
       send_file_loop [] (.resp (some "OK") m :: rest) w =
         .ok (true, rest, w ++ [[0, 0]]))
    ∧ (∀ (m : String) (rest : List SEv),
       expectOkAux (.resp (some "MAIN") m :: rest) = expectOkAux rest) := by
  refine ⟨?_, ?_, ?_⟩
  · intro sc sc2 w w2 b h
    rw [send_file_loop] at h
    unfold sendZeroChunk at h
    split at h
    · cases h
    · rename_i sc1 w1 hs
      split at h
      · cases h
      · rename_i pr isOk msg sc3 he
        cases h
        rw [(sendAux_ok _ _ _ _ _ hs).2]
        rfl
  · intro m rest w
    rfl
  · intro m rest
    rfl

/-- Claim C6 witness: the exactly-one-zero-frame statement applied to a
concrete successful run. -/
theorem C6_witness :
    ([[0, 0]] : List (List Nat)) = [] ++ [[0, 0]] :=
  C6_amended_terminator.1 [.resp (some "OK") "y"] [] [] [[0, 0]] true rfl

/-- Claim C1, counterexample: the single chunk `[1, 2, 3]` goes on the wire
as the frames `[0, 3]` (its big-endian length) and `[1, 2, 3]` (the raw
payload), followed by the zero-length terminator; no frame starts with the
sentinel byte 0x23 and the sentinel byte never appears on the wire, and no
XOR checksum byte is sent. -/
theorem C1_counterexample :
    send_file_loop [[1, 2, 3]]
        [.resp (some "OK") "", .resp (some "OK") "", .resp (some "OK") ""] [] =
      .ok (true, [], [[0, 3], [1, 2, 3], [0, 0]])
    ∧ (35 : Nat) ∉ ([[0, 3], [1, 2, 3], [0, 0]] : List (List Nat)).flatten :=
  ⟨rfl, by decide⟩

/-- Claim C1 as amended: each non-empty chunk is transmitted as two
acknowledged frames — the chunk length as a 2-byte big-endian integer, then
the payload bytes unchanged — and the transfer ends with one zero-length
frame; there is no sentinel byte and no checksum byte.  (Chunk lengths stay
below 2^16 in the source because each read is bounded by the buffer
size.) -/
theorem C1_amended_framing (chunks : List (List Nat)) (w : List (List Nat))
    (h : ∀ c ∈ chunks, c ≠ []) :
    send_file_loop chunks (allOkScript (2 * chunks.length + 1)) w =
      .ok (true, [], w ++ wireFrames chunks) := by
  induction chunks generalizing w with
  | nil => rfl
  | cons c cs ih =>
    have hc : c ≠ [] := h c (List.mem_cons_self c cs)
    have hcs : ∀ x ∈ cs, x ≠ [] := fun x hx => h x (List.mem_cons_of_mem c hx)
    have hrep : allOkScript (2 * (c :: cs).length + 1) =
        .resp (some "OK") "" :: .resp (some "OK") "" ::
          allOkScript (2 * cs.length + 1) := by
      simp [allOkScript, List.length_cons]
      rw [show 2 * (cs.length + 1) + 1 = (2 * cs.length + 1) + 1 + 1 by ring]
      rw [List.replicate_succ, List.replicate_succ]
    rw [hrep, send_file_loop]
    rw [if_neg (by simpa using hc)]
    simp only [sendAux, expectOkAux]
    rw [ih _ hcs]
    simp [wireFrames, List.append_assoc]

/-- Claim C1 witness: the amended framing applied to two concrete chunks. -/
theorem C1_witness :
    send_file_loop [[7], [8, 9]] (allOkScript 5) [] =
      .ok (true, [], [[0, 1], [7], [0, 2], [8, 9], [0, 0]]) := by
  have := C1_amended_framing [[7], [8, 9]] [] (by decide)
  simpa using this

/-- The candidate fold of `_list_potential_ports` is the first-occurrence
de-duplicating fold over the heuristic-matching devices. -/
theorem listPorts_foldl_eq (sys : List PortInfo) (acc : List String) :
    sys.foldl
        (fun ports p =>
          if ports.contains p.device then ports
          else if matchesHeuristics p then ports ++ [p.device]
          else ports)
        acc =
      ((sys.filter matchesHeuristics).map (fun p => p.device)).foldl
        (fun a d => if a.contains d then a else a ++ [d]) acc := by
  induction sys generalizing acc with
  | nil => rfl
  | cons p t ih =>
    by_cases hm : matchesHeuristics p
    · by_cases hc : acc.contains p.device
      · simp only [List.foldl_cons, List.filter_cons, hm, if_true, hc,
          List.map_cons]
        exact ih acc
      · simp only [List.foldl_cons, List.filter_cons, hm, if_true, hc,
          Bool.false_eq_true, if_false, List.map_cons]
        exact ih (acc ++ [p.device])
    · by_cases hc : acc.contains p.device
      · simp only [List.foldl_cons, List.filter_cons, hm, Bool.false_eq_true,
          if_false, hc, if_true]
        exact ih acc
      · simp only [List.foldl_cons, List.filter_cons, hm, Bool.false_eq_true,
          if_false, hc]
        exact ih acc

/-- Probing candidates that all fail with a swallowed error walks the whole
list in order and ends with the not-found error. -/
theorem probeLoop_allFail (envOf : String → ProbeEnv) (cmd : CmdDict)
    (ports : List String)
    (h : ∀ p ∈ ports, (probe_port (envOf p) cmd).1 = .nothing) :
    (probeLoop envOf cmd ports).2.map Prod.fst = ports ∧
      (probeLoop envOf cmd ports).1 = .error .notFound := by
  induction ports with
  | nil => constructor <;> rfl
  | cons p rest ih =>
    have hp := h p (List.mem_cons_self p rest)
    have hrest : ∀ q ∈ rest, (probe_port (envOf q) cmd).1 = .nothing :=
      fun q hq => h q (List.mem_cons_of_mem p hq)
    obtain ⟨ih1, ih2⟩ := ih hrest
    rcases hpp : probe_port (envOf p) cmd with ⟨res, k⟩
    rw [hpp] at hp
    simp only at hp
    subst hp
    constructor
    · simp [probeLoop, hpp, ih1]
    · simp [probeLoop, hpp, ih2]


/-- Claim C3, counterexample: with explicit port `A`, persisted port `B` and
two heuristic-matching enumerated ports `C`, `D` (all probes failing), the
probe order is `[A, C, D]`; the persisted port `B` is not probed at all, so
the order is not `[explicit, persisted, scanned...]`. -/
theorem C3_counterexample :
    ((find_and_connect ⟨none, some 1⟩ (some "A") (some "B")
        [⟨"C", some "Arduino LLC", none⟩, ⟨"D", some "FTDI", none⟩]
        (fun _ => ⟨true, .serialRaise⟩)).2.map Prod.fst = ["A", "C", "D"])
    ∧ "B" ∉ ((find_and_connect ⟨none, some 1⟩ (some "A") (some "B")
        [⟨"C", some "Arduino LLC", none⟩, ⟨"D", some "FTDI", none⟩]
        (fun _ => ⟨true, .serialRaise⟩)).2.map Prod.fst) :=
  ⟨rfl, by decide⟩

/-- Claim C3 as amended: the persisted port is considered only when no
explicit port is supplied; the probe order is exactly
`[explicit-or-persisted, matching scanned ports...]` with duplicates removed
and order preserved. -/
theorem C3_amended_order :
    (∀ (cmd : CmdDict) (explicit configPort : Option String)
       (sys : List PortInfo) (envOf : String → ProbeEnv),
       (∀ p, (probe_port (envOf p) cmd).1 = .nothing) →
       (find_and_connect cmd explicit configPort sys envOf).2.map Prod.fst =
         list_potential_ports
           (if optTruthy explicit then explicit else configPort) sys)
    ∧ (∀ (preferred : Option String) (sys : List PortInfo),
       list_potential_ports preferred sys =
         dedupKeepFirst
           ((if optTruthy preferred then [preferred.getD ""] else []) ++
             (sys.filter matchesHeuristics).map (fun p => p.device))) := by
  constructor
  · intro cmd explicit configPort sys envOf h
    simp only [find_and_connect]
    split <;>
      [skip; skip] <;>
      · split
        · rename_i hempty
          rw [hempty]
          rfl
        · exact (probeLoop_allFail envOf cmd _ (fun p _ => h p)).1
  · intro preferred sys
    rw [list_potential_ports, dedupKeepFirst, List.foldl_append,
      listPorts_foldl_eq]
    cases hp : optTruthy preferred <;> simp

/-- Claim C3 witness: the amended order applied to a concrete configuration
with no explicit port, where the persisted port leads. -/
theorem C3_witness :
    (find_and_connect ⟨none, some 1⟩ none (some "P")
        [⟨"Q", some "CH340 Inc", none⟩]
        (fun _ => ⟨false, .serialRaise⟩)).2.map Prod.fst =
      list_potential_ports (some "P") [⟨"Q", some "CH340 Inc", none⟩] :=
  C3_amended_order.1 ⟨none, some 1⟩ none (some "P")
    [⟨"Q", some "CH340 Inc", none⟩] (fun _ => ⟨false, .serialRaise⟩)
    (fun _ => rfl)

/-- A probe closes the connection of its port at most once. -/
theorem probe_port_closes_le_one (env : ProbeEnv) (cmd : CmdDict) :
    (probe_port env cmd).2 ≤ 1 := by
  unfold probe_port
  split
  · exact Nat.zero_le 1
  · split
    · exact Nat.le_refl 1
    · exact Nat.le_refl 1
    · exact Nat.le_refl 1
    · split
      · exact Nat.zero_le 1
      · split
        · split
          · split
            · exact Nat.zero_le 1
            · exact Nat.le_refl 1
          · exact Nat.le_refl 1
        · exact Nat.le_refl 1

/-- Claim C9: a swallowed failure on one candidate advances the loop to the
next candidate unchanged (after closing the connection of the failed
candidate, if it ever opened, exactly once); a firmware-outdated failure
stops the loop at once and propagates, with the failed connection closed; a
list of candidates that all fail ends with the programmer-not-found error,
both in the loop and at the `find_and_connect` level (where an empty
candidate list raises its own not-found variant). -/
theorem C9_probe_policy :
    (∀ (envOf : String → ProbeEnv) (cmd : CmdDict) (p : String)
       (rest : List String),
       (probe_port (envOf p) cmd).1 = .nothing →
       (probeLoop envOf cmd (p :: rest)).1 = (probeLoop envOf cmd rest).1
       ∧ (probeLoop envOf cmd (p :: rest)).2 =
           (p, (probe_port (envOf p) cmd).2) :: (probeLoop envOf cmd rest).2
       ∧ (probe_port (envOf p) cmd).2 ≤ 1)
    ∧ (∀ (envOf : String → ProbeEnv) (cmd : CmdDict) (p : String)
       (rest : List String),
       (probe_port (envOf p) cmd).1 = .fwOut →
       probeLoop envOf cmd (p :: rest) =
         (.error .fwOutdated, [(p, (probe_port (envOf p) cmd).2)]))
    ∧ (∀ (envOf : String → ProbeEnv) (cmd : CmdDict) (ports : List String),
       (∀ p ∈ ports, (probe_port (envOf p) cmd).1 = .nothing) →
       (probeLoop envOf cmd ports).1 = .error .notFound)
    ∧ (∀ (cmd : CmdDict) (explicit configPort : Option String)
       (sys : List PortInfo) (envOf : String → ProbeEnv),
       (∀ p, (probe_port (envOf p) cmd).1 = .nothing) →
       (find_and_connect cmd explicit configPort sys envOf).1 =
           .error .notFound ∨
         (find_and_connect cmd explicit configPort sys envOf).1 =
           .error .noPorts) := by
  refine ⟨?_, ?_, ?_, ?_⟩
  · intro envOf cmd p rest hp
    rcases hpp : probe_port (envOf p) cmd with ⟨res, k⟩
    rw [hpp] at hp
    simp only at hp
    subst hp
    refine ⟨?_, ?_, ?_⟩
    · simp [probeLoop, hpp]
    · simp [probeLoop, hpp]
    · have := probe_port_closes_le_one (envOf p) cmd
      rw [hpp] at this
      exact this
  · intro envOf cmd p rest hp
    rcases hpp : probe_port (envOf p) cmd with ⟨res, k⟩
    rw [hpp] at hp
    simp only at hp
    subst hp
    simp [probeLoop, hpp]
  · intro envOf cmd ports h
    exact (probeLoop_allFail envOf cmd ports h).2
  · intro cmd explicit configPort sys envOf h
    simp only [find_and_connect]
    split <;>
      [skip; skip] <;>
      · split
        · right; rfl
        · left
          exact (probeLoop_allFail envOf cmd _ (fun p _ => h p)).2

/-- Claim C9 witness: the exhaustion statement applied to two concrete
failing candidates. -/
theorem C9_witness :
    (probeLoop (fun _ => ⟨true, .serialRaise⟩) ⟨none, some 2⟩
        ["P1", "P2"]).1 = .error .notFound :=
  C9_probe_policy.2.2.1 (fun _ => ⟨true, .serialRaise⟩) ⟨none, some 2⟩
    ["P1", "P2"] (by decide)

/-- An operation that never made a session closes nothing. -/
theorem noSessionOut_closesOnce (r : Except PyErr Bool) :
    closesOnce (noSessionOut r) :=
  rfl

/-- The shared epilogue closes the session exactly once when one was
established and nothing otherwise, whatever the body did. -/
theorem finishOp_closesOnce (cs : Bool)
    (b : Except PyErr (Bool × List (List Nat))) (cp : PyErr → Bool) :
    closesOnce (finishOp cs b cp) := by
  cases cs <;> rfl

/-- Claim C2: every public EPROM operation, on every exit path — returned
result or propagated exception — closes the serial session exactly once when
one was established during setup, and touches no session otherwise; no
operation leaves a session open. -/
theorem C2_disconnect_exactly_once :
    (∀ connect ed opFlags addressStr sizeStr outOpenOk sc,
       closesOnce (read_eprom connect ed opFlags addressStr sizeStr outOpenOk sc))
    ∧ (∀ connect ed opFlags addressStr fileExists chunks sc,
       closesOnce (write_eprom connect ed opFlags addressStr fileExists chunks sc))
    ∧ (∀ connect ed opFlags addressStr fileExists chunks sc,
       closesOnce (verify_eprom connect ed opFlags addressStr fileExists chunks sc))
    ∧ (∀ connect ed opFlags sc,
       closesOnce (erase_eprom connect ed opFlags sc))
    ∧ (∀ connect ed opFlags sc,
       closesOnce (check_eprom_blank connect ed opFlags sc))
    ∧ (∀ connect ed opFlags db sc,
       closesOnce (check_eprom_id connect ed opFlags db sc))
    ∧ (∀ connect ed addressStr sizeStr opFlags sc,
       closesOnce (dev_read_eprom connect ed addressStr sizeStr opFlags sc))
    ∧ (∀ msbStr lsbStr ctrlStr firestarter connect sc,
       closesOnce (dev_set_registers msbStr lsbStr ctrlStr firestarter connect sc))
    ∧ (∀ connect ed addressStr opFlags sc,
       closesOnce (dev_set_address_mode connect ed addressStr opFlags sc)) := by
  refine ⟨?_, ?_, ?_, ?_, ?_, ?_, ?_, ?_, ?_⟩ <;> intros <;>
    simp only [read_eprom, write_eprom, verify_eprom, write_like, erase_eprom,
      check_eprom_blank, perform_simple_command, check_eprom_id,
      dev_read_eprom, dev_set_registers, dev_set_address_mode] <;>
    (repeat' split) <;>
    first
      | exact noSessionOut_closesOnce _
      | exact finishOp_closesOnce _ _ _

end Firestarter
